import Mathlib

/-!
# Verification development for the KnativeServing mutating admission webhook

Shallow embedding of

* `pkg/webhook/knativeserving/knativeserving_webhook.go`
  (`Add`, `KnativeServingConfigurator.Handle`, `KnativeServingConfigurator.mutate`)
* `pkg/webhook/webhook.go` (`AddToManager`, `runningOnOpenshift`)
* `pkg/webhook/add_knativeserving.go` (the `init` that fills `AddToManagerFuncs`)

Go maps are reference values that may be `nil`; reading a `nil` map yields the
zero value, writing to one panics.  Both are kept in the model, so that the
guards of `mutate` are load-bearing.

The CR is modelled twice.  `KnativeServing` holds the inner maps of `Config` as
values, which is what the decoder hands to `Handle`: every inner map is built
anew and none is shared.  `SharedKnativeServing` holds them by reference, so that
two groups may share one inner map; `mutateShared` is `mutate` over it, and
`mutateShared_agrees_with_mutate` relates the two.
-/

namespace KnativeWebhook

/-! ## Go values -/

/-- A Go `error` value (non-nil); `Option GoError` is the Go type `error`. -/
structure GoError where
  msg : String
deriving DecidableEq, Repr

/-- A Go run-time panic. -/
inductive GoPanic where
  | assignmentToEntryInNilMap
deriving DecidableEq, Repr

/-- A Go `map[string]V`: either the `nil` map or an allocated map, held as an
association list (the first entry for a key is the live one). -/
inductive GoMap (V : Type) where
  | nil
  | mk (entries : List (String × V))
deriving DecidableEq, Repr

namespace GoMap

variable {V : Type}

/-- The entries of an allocated map after `m[k] = v`: the entry for `k` is
overwritten where it stands, a new key is added. -/
def storeEntries (k : String) (v : V) : List (String × V) → List (String × V)
  | [] => [(k, v)]
  | (k', v') :: rest =>
    if k' = k then (k, v) :: rest else (k', v') :: storeEntries k v rest

/-- The entry lookup behind `v, ok := m[k]`. -/
def lookupEntries (k : String) : List (String × V) → Option V
  | [] => none
  | (k', v') :: rest => if k' = k then some v' else lookupEntries k rest

/-- The comma-ok read `v, ok := m[k]`: `none` when the key is absent (always so in
a `nil` map). -/
def lookup? (m : GoMap V) (k : String) : Option V :=
  match m with
  | nil => none
  | mk es => lookupEntries k es

/-- The read `m[k]`: the zero value of `V` when the key is absent. -/
def index (zero : V) (m : GoMap V) (k : String) : V :=
  (m.lookup? k).getD zero

/-- The write `m[k] = v`: panics on a `nil` map. -/
def store (m : GoMap V) (k : String) (v : V) : Except GoPanic (GoMap V) :=
  match m with
  | nil => .error .assignmentToEntryInNilMap
  | mk es => .ok (mk (storeEntries k v es))

/-- The test `m == nil`. -/
def isNil : GoMap V → Bool
  | nil => true
  | mk _ => false

end GoMap

/-- Go `len(s)` for a string: its length in bytes. -/
def len (s : String) : Nat := s.utf8ByteSize

/-! ## The Serving CR -/

/-- Uninterpreted content of the fields this webhook never reads. -/
abbrev Blob := String

/-- Modelled from the spec: `servingv1alpha1.KnativeServingSpec` (declared outside
`src/`); the one field that matters is the two-level string dictionary `Config`,
either level of which may be unset. -/
structure KnativeServingSpec where
  Config : GoMap (GoMap String)
deriving DecidableEq, Repr

/-- Modelled from the spec: `servingv1alpha1.KnativeServing` (declared outside
`src/`); every field other than `Spec.Config` is uninterpreted. -/
structure KnativeServing where
  TypeMeta : Blob
  ObjectMeta : Blob
  Spec : KnativeServingSpec
  Status : Blob
deriving DecidableEq, Repr

/-- The value `ks.Spec.Config[g][k]` as Go evaluates it (zero values for unset
levels). -/
def KnativeServing.configValue (ks : KnativeServing) (g k : String) : String :=
  GoMap.index "" (GoMap.index GoMap.nil ks.Spec.Config g) k

/-- The comma-ok reading of `ks.Spec.Config[g][k]`: `none` when the group or the
key is absent. -/
def KnativeServing.configLookup? (ks : KnativeServing) (g k : String) : Option String :=
  (GoMap.index GoMap.nil ks.Spec.Config g).lookup? k

/-! ## `mutate` -/

/-- The constant `configmap` of `mutate`. -/
def configmap : String := "network"

/-- The constant `key` of `mutate`. -/
def key : String := "istio.sidecar.includeOutboundIPRanges"

/-- The constant `value` of `mutate`. -/
def value : String := "10.0.0.1/24"

/-- The method `KnativeServingConfigurator.mutate`: the CR is updated in place, so
the model returns the returned `error` together with the updated CR; a panic of a
map write is the `Except` error.  Go maps are references: the write to
`ks.Spec.Config[configmap][key]` goes to the inner map that `Config` holds, which
the value model renders by putting the updated inner map back under `configmap`.
This is exact when no other group holds that same inner map; `mutateShared` below
covers CRs with shared inner maps. -/
def mutate (ks : KnativeServing) : Except GoPanic (Option GoError × KnativeServing) := do
  -- if ks.Spec.Config == nil { ks.Spec.Config = map[string]map[string]string{} }
  let ks := if ks.Spec.Config.isNil then { ks with Spec := { Config := GoMap.mk [] } } else ks
  -- if len(ks.Spec.Config[configmap][key]) == 0 {
  if len (GoMap.index "" (GoMap.index GoMap.nil ks.Spec.Config configmap) key) == 0 then
    -- if ks.Spec.Config[configmap] == nil { ks.Spec.Config[configmap] = map[string]string{} }
    let cfg ←
      if (GoMap.index GoMap.nil ks.Spec.Config configmap).isNil then
        ks.Spec.Config.store configmap (GoMap.mk [])
      else pure ks.Spec.Config
    -- ks.Spec.Config[configmap][key] = value
    let inner ← (GoMap.index GoMap.nil cfg configmap).store key value
    let cfg ← cfg.store configmap inner
    return (none, { ks with Spec := { Config := cfg } })
  else
    -- return nil
    return (none, ks)

/-! ## Admission requests and responses -/

/-- Serialized bytes. -/
abbrev Bytes := List Nat

/-- Modelled from the spec: `admission.Request` (declared outside `src/`); it
carries the raw serialized object `req.Object.Raw` and uninterpreted metadata. -/
structure Request where
  Raw : Bytes
  Metadata : Blob
deriving DecidableEq, Repr

/-- Modelled from the spec: the HTTP-style error code and message of an errored
admission response (`metav1.Status`, declared outside `src/`). -/
structure Status where
  Code : Nat
  Message : String
deriving DecidableEq, Repr

/-- One operation of a JSON patch (uninterpreted). -/
structure JSONPatchOperation where
  Operation : String
  Path : String
  Value : Blob
deriving DecidableEq, Repr

/-- Modelled from the spec: `admission.Response` (declared outside `src/`); a
response carries either an HTTP-style error code and message or a JSON patch, and
the `Allowed` flag. -/
structure Response where
  Allowed : Bool
  Result : Option Status
  Patches : List JSONPatchOperation
deriving DecidableEq, Repr

/-- The constant `http.StatusBadRequest`. -/
def StatusBadRequest : Nat := 400

/-- The constant `http.StatusInternalServerError`. -/
def StatusInternalServerError : Nat := 500

/-- Modelled from the spec: `admission.Errored` (controller-runtime, outside
`src/`): the response that reports an error, not allowed, with the given code and
the message of the error. -/
def Errored (code : Nat) (err : GoError) : Response :=
  { Allowed := false, Result := some { Code := code, Message := err.msg }, Patches := [] }

/-- Modelled from the spec: `admission.PatchResponseFromRaw` (controller-runtime,
outside `src/`): the JSON patch from the original to the current bytes as an
allowed response; a failure of the patch computation is reported as an errored
response (a server error).  The patch computation itself is a parameter. -/
def PatchResponseFromRaw (createPatch : Bytes → Bytes → Except GoError (List JSONPatchOperation))
    (original current : Bytes) : Response :=
  match createPatch original current with
  | .error err => Errored StatusInternalServerError err
  | .ok patches => { Allowed := true, Result := none, Patches := patches }

/-- A handle on a cluster client (`client.Client`). -/
structure Client where
  id : String
deriving DecidableEq, Repr

/-- The external functions `Handle` calls: `json.Marshal` on the CR and the patch
computation behind `admission.PatchResponseFromRaw`, each returning a result or
an error. -/
structure Framework where
  Marshal : KnativeServing → Except GoError Bytes
  CreatePatch : Bytes → Bytes → Except GoError (List JSONPatchOperation)

/-- The struct `KnativeServingConfigurator`; the injected decoder is a function
from the request to a decoded CR or an error. -/
structure KnativeServingConfigurator where
  client : Option Client
  decoder : Request → Except GoError KnativeServing

/-- The method `KnativeServingConfigurator.Handle`; the context argument is not
used. -/
def Handle (fw : Framework) (a : KnativeServingConfigurator) (req : Request) :
    Except GoPanic Response :=
  -- err := a.decoder.Decode(req, ks)
  match a.decoder req with
  | .error err => .ok (Errored StatusBadRequest err)
  | .ok ks =>
    -- err = a.mutate(ctx, ks)
    match mutate ks with
    | .error p => .error p
    | .ok (some err, _) => .ok (Errored StatusBadRequest err)
    | .ok (none, ks) =>
      -- marshaledPod, err := json.Marshal(ks)
      match fw.Marshal ks with
      | .error err => .ok (Errored StatusInternalServerError err)
      | .ok marshaledPod => .ok (PatchResponseFromRaw fw.CreatePatch req.Raw marshaledPod)

/-! ## The manager, the probe and registration -/

/-- One line written to a logger. -/
inductive LogEntry where
  | info (logger msg : String)
  | error (logger : String) (err : GoError) (msg : String)
deriving DecidableEq, Repr

/-- A client configuration `*rest.Config` (uninterpreted). -/
structure RestConfig where
  Host : String
deriving DecidableEq, Repr

/-- The type `schema.GroupVersionKind`. -/
structure GroupVersionKind where
  Group : String
  Version : String
  Kind : String
deriving DecidableEq, Repr

/-- The cluster as `runningOnOpenshift` sees it: the outcome of `client.New`, the
outcome of `c.List` for a list of the given kind (`none` is the nil error), and
the test `meta.IsNoMatchError`. -/
structure ClusterAPI where
  New : RestConfig → Except GoError Client
  List : Client → GroupVersionKind → Option GoError
  IsNoMatchError : GoError → Bool

/-- The handler a webhook is built around. -/
inductive AdmissionHandler where
  | knativeServingConfigurator
  | other (name : String)
deriving DecidableEq, Repr

/-- The struct `webhook.Admission`. -/
structure Admission where
  Handler : AdmissionHandler
deriving DecidableEq, Repr

/-- The managed webhook server: the hooks mounted so far, by path, in the
order of registration. -/
structure WebhookServer where
  webhooks : List (String × Admission)
deriving DecidableEq, Repr

/-- Modelled from the spec: `webhook.Server.Register` (controller-runtime, outside
`src/`): mounts the hook on the server at the given path. -/
def WebhookServer.Register (s : WebhookServer) (path : String) (hook : Admission) :
    WebhookServer :=
  { webhooks := s.webhooks ++ [(path, hook)] }

/-- The paths mounted on a webhook server. -/
def WebhookServer.paths (s : WebhookServer) : List String :=
  s.webhooks.map Prod.fst

/-- The part of `manager.Manager` the webhook package uses. -/
structure Manager where
  config : RestConfig
  webhookServer : WebhookServer
deriving DecidableEq, Repr

/-- The method `mgr.GetConfig()`. -/
def Manager.GetConfig (m : Manager) : RestConfig := m.config

/-- The method `mgr.GetWebhookServer()`. -/
def Manager.GetWebhookServer (m : Manager) : WebhookServer := m.webhookServer

/-- An element of `AddToManagerFuncs`, a `func(manager.Manager) error`: it
returns its error, the manager as it leaves it, and the lines it logged. -/
abbrev Installer := Manager → Option GoError × Manager × List LogEntry

/-- The path the handler is mounted at. -/
def mutatePath : String := "/mutate-v1alpha1-knativeserving"

/-- The function `knativeserving.Add`. -/
def Add (mgr : Manager) : Option GoError × Manager × List LogEntry :=
  let hookServer := mgr.GetWebhookServer
  let hookServer := hookServer.Register mutatePath { Handler := .knativeServingConfigurator }
  (none, { mgr with webhookServer := hookServer },
    [LogEntry.info "webhook_knativeserving" "Setting up mutating webhook for KnativeServing"])

/-- The list `AddToManagerFuncs` after the package's `init` has run: empty at
declaration, `knativeserving.Add` appended. -/
def AddToManagerFuncs : List Installer := [] ++ [Add]

/-- The kind the probe lists. -/
def routeGVK : GroupVersionKind :=
  { Group := "route.openshift.io", Version := "v1", Kind := "route" }

/-- The function `runningOnOpenshift`: its result and the lines it logged. -/
def runningOnOpenshift (api : ClusterAPI) (cfg : RestConfig) : Bool × List LogEntry :=
  -- c, err := client.New(cfg, client.Options{})
  match api.New cfg with
  | .error err => (false, [LogEntry.error "webhook" err "Can't create client"])
  | .ok c =>
    -- if err := c.List(context.TODO(), list); err != nil {
    match api.List c routeGVK with
    | some err =>
      (false,
        if !api.IsNoMatchError err then
          [LogEntry.error "webhook" err "Unable to query for OpenShift Route"]
        else [])
    | none => (true, [])

/-- What a run of `AddToManager` leaves behind: the returned error, the manager,
the lines logged and the installers that were called, in call order. -/
structure AddToManagerResult where
  err : Option GoError
  mgr : Manager
  logs : List LogEntry
  invoked : List Installer

/-- The loop `for _, f := range AddToManagerFuncs` of `AddToManager`. -/
def runInstallers : List Installer → Manager → AddToManagerResult
  | [], m => { err := none, mgr := m, logs := [], invoked := [] }
  | f :: fs, m =>
    match f m with
    | (some err, m1, l) =>
      { err := some err, mgr := m1,
        logs := l ++ [LogEntry.error "webhook" err "Unable to setup webhook"],
        invoked := [f] }
    | (none, m1, l) =>
      let r := runInstallers fs m1
      { err := r.err, mgr := r.mgr, logs := l ++ r.logs, invoked := f :: r.invoked }

/-- The function `AddToManager`, over the list held in `AddToManagerFuncs`. -/
def AddToManager (api : ClusterAPI) (funcs : List Installer) (m : Manager) :
    AddToManagerResult :=
  match runningOnOpenshift api m.GetConfig with
  | (false, l) =>
    { err := none, mgr := m,
      logs := l ++ [LogEntry.info "webhook" "OpenShift not detected; no webhooks will be configured"],
      invoked := [] }
  | (true, l) =>
    let r := runInstallers funcs m
    { r with logs := l ++ r.logs }

/-! ## Inner maps held by reference

A Go map value is a reference: two groups of `Config` may hold one and the same
inner map, and a write through one of them is seen through the other.  The CR
below keeps the inner maps in a store of cells, so that such sharing can be
expressed; `mutateShared` is `mutate` over it. -/

/-- A value of type `map[string]string` as Go holds it: `nil`, or a reference to an
allocated map, named by its address. -/
inductive MapRef where
  | nil
  | addr (a : Nat)
deriving DecidableEq, Repr

/-- The store of allocated inner maps: the entries of the map at each address. -/
abbrev Cells := Nat → List (String × String)

/-- The store after the map at address `a` has been given the entries `es`. -/
def setCell (cells : Cells) (a : Nat) (es : List (String × String)) : Cells :=
  fun b => if b = a then es else cells b

namespace MapRef

/-- The test `m == nil`. -/
def isNil : MapRef → Bool
  | nil => true
  | addr _ => false

/-- The comma-ok read `v, ok := m[k]` through a reference. -/
def lookup? (cells : Cells) (r : MapRef) (k : String) : Option String :=
  match r with
  | nil => none
  | addr a => GoMap.lookupEntries k (cells a)

/-- The read `m[k]` through a reference: the empty string when the key is absent. -/
def index (cells : Cells) (r : MapRef) (k : String) : String :=
  (r.lookup? cells k).getD ""

/-- The write `m[k] = v` through a reference: panics on `nil`, otherwise updates
the map at the address, for every holder of the reference. -/
def store (cells : Cells) (r : MapRef) (k : String) (v : String) : Except GoPanic Cells :=
  match r with
  | nil => .error .assignmentToEntryInNilMap
  | addr a => .ok (setCell cells a (GoMap.storeEntries k v (cells a)))

end MapRef

/-- An address that no entry of the outer map refers to: where a newly made inner
map is placed. -/
def freshEntries : List (String × MapRef) → Nat
  | [] => 0
  | (_, MapRef.nil) :: rest => freshEntries rest
  | (_, MapRef.addr a) :: rest => max (a + 1) (freshEntries rest)

/-- An address that no group of the outer map refers to. -/
def freshAddr : GoMap MapRef → Nat
  | GoMap.nil => 0
  | GoMap.mk es => freshEntries es

/-- The Serving CR with the inner maps of `Spec.Config` held by reference: `Config`
maps a group to a reference, `cells` holds the maps referred to.  Groups with the
same address share one inner map. -/
structure SharedKnativeServing where
  TypeMeta : Blob
  ObjectMeta : Blob
  Config : GoMap MapRef
  Status : Blob
  cells : Cells

/-- The comma-ok reading of `ks.Spec.Config[g][k]` on a CR with inner maps held by
reference. -/
def SharedKnativeServing.configLookup? (ks : SharedKnativeServing) (g k : String) :
    Option String :=
  (GoMap.index MapRef.nil ks.Config g).lookup? ks.cells k

/-- The inner map a reference stands for, as a value. -/
def derefMap (cells : Cells) : MapRef → GoMap String
  | MapRef.nil => GoMap.nil
  | MapRef.addr a => GoMap.mk (cells a)

/-- The CR read out as a value: every group with the content of the map it
refers to. -/
def SharedKnativeServing.toValue (ks : SharedKnativeServing) : KnativeServing :=
  { TypeMeta := ks.TypeMeta, ObjectMeta := ks.ObjectMeta, Status := ks.Status,
    Spec := { Config :=
      match ks.Config with
      | GoMap.nil => GoMap.nil
      | GoMap.mk es => GoMap.mk (es.map fun e => (e.1, derefMap ks.cells e.2)) } }

/-- The method `KnativeServingConfigurator.mutate` on a CR whose inner maps are
held by reference: `map[string]string{}` makes a map at an address no group
refers to, and the write to `ks.Spec.Config[configmap][key]` goes through the
reference that `Config` holds under `configmap`. -/
def mutateShared (ks : SharedKnativeServing) :
    Except GoPanic (Option GoError × SharedKnativeServing) := do
  -- if ks.Spec.Config == nil { ks.Spec.Config = map[string]map[string]string{} }
  let ks := if ks.Config.isNil then { ks with Config := GoMap.mk [] } else ks
  -- if len(ks.Spec.Config[configmap][key]) == 0 {
  if len ((GoMap.index MapRef.nil ks.Config configmap).index ks.cells key) == 0 then
    -- if ks.Spec.Config[configmap] == nil { ks.Spec.Config[configmap] = map[string]string{} }
    let ks ←
      if (GoMap.index MapRef.nil ks.Config configmap).isNil then do
        let a := freshAddr ks.Config
        let cfg ← ks.Config.store configmap (MapRef.addr a)
        pure { ks with Config := cfg, cells := setCell ks.cells a [] }
      else pure ks
    -- ks.Spec.Config[configmap][key] = value
    let cells ← (GoMap.index MapRef.nil ks.Config configmap).store ks.cells key value
    return (none, { ks with cells := cells })
  else
    -- return nil
    return (none, ks)

/-- A CR in which the groups "network" and "other" hold one and the same (empty)
inner map. -/
def crSharedInner : SharedKnativeServing :=
  { TypeMeta := "KnativeServing", ObjectMeta := "knative-serving", Status := "",
    Config := GoMap.mk [("network", MapRef.addr 0), ("other", MapRef.addr 0)],
    cells := fun _ => [] }

/-- A CR in which "network" and "other" hold two different inner maps. -/
def crSeparateInner : SharedKnativeServing :=
  { TypeMeta := "KnativeServing", ObjectMeta := "knative-serving", Status := "",
    Config := GoMap.mk [("network", MapRef.addr 0), ("other", MapRef.addr 1)],
    cells := fun a => if a = 1 then [("bar", "baz")] else [] }

/-! ## Concrete inputs -/

/-- Scenario S1: a CR whose `Config` is unset. -/
def crConfigUnset : KnativeServing :=
  { TypeMeta := "KnativeServing", ObjectMeta := "knative-serving",
    Spec := { Config := GoMap.nil }, Status := "" }

/-- Scenario S4: a CR whose target key is set by the user. -/
def crUserValue : KnativeServing :=
  { TypeMeta := "KnativeServing", ObjectMeta := "knative-serving",
    Spec := { Config := GoMap.mk [("network",
      GoMap.mk [("istio.sidecar.includeOutboundIPRanges", "192.168.0.0/16")])] },
    Status := "" }

/-- Scenario S5: a CR whose target key is mapped to the empty string. -/
def crEmptyValue : KnativeServing :=
  { TypeMeta := "KnativeServing", ObjectMeta := "knative-serving",
    Spec := { Config := GoMap.mk [("network",
      GoMap.mk [("istio.sidecar.includeOutboundIPRanges", "")])] },
    Status := "" }

/-- A request with some raw bytes. -/
def sampleRequest : Request := { Raw := [123, 125], Metadata := "CREATE" }

/-- A configurator whose decoder rejects every request. -/
def rejectingConfigurator : KnativeServingConfigurator :=
  { client := none, decoder := fun _ => .error { msg := "unexpected end of JSON input" } }

/-- A configurator whose decoder yields the CR of scenario S1. -/
def decodingConfigurator : KnativeServingConfigurator :=
  { client := none, decoder := fun _ => .ok crConfigUnset }

/-- A framework in which serialization and patch computation succeed. -/
def workingFramework : Framework :=
  { Marshal := fun ks => .ok [ks.TypeMeta.length, ks.ObjectMeta.length],
    CreatePatch := fun _ current =>
      .ok [{ Operation := "add", Path := "/spec/config", Value := toString current }] }

/-- A framework in which serialization fails. -/
def brokenMarshalFramework : Framework :=
  { Marshal := fun _ => .error { msg := "json: unsupported value" },
    CreatePatch := fun _ _ => .ok [] }

/-- A cluster that serves routes: the client is built and the LIST succeeds. -/
def openshiftCluster : ClusterAPI :=
  { New := fun cfg => .ok { id := cfg.Host },
    List := fun _ _ => none,
    IsNoMatchError := fun err => err.msg == "no matches for kind" }

/-- A vanilla cluster: the LIST of routes fails with a no-match error. -/
def vanillaCluster : ClusterAPI :=
  { New := fun cfg => .ok { id := cfg.Host },
    List := fun _ _ => some { msg := "no matches for kind" },
    IsNoMatchError := fun err => err.msg == "no matches for kind" }

/-- A manager on whose webhook server nothing is mounted. -/
def freshManager : Manager :=
  { config := { Host := "https://cluster.local" }, webhookServer := { webhooks := [] } }

/-- An installer that fails and leaves the manager as it is. -/
def failingInstaller : Installer :=
  fun m => (some { msg := "cannot set up webhook" }, m, [])

/-! ## Lemmas on Go values -/

theorem utf8ByteSize_go_pos (c : Char) (cs : List Char) (n : Nat) :
    0 < String.utf8ByteSize.go (c :: cs) + n := by
  have := Char.utf8Size_pos c
  simp only [String.utf8ByteSize.go]
  omega

theorem len_eq_zero_iff (s : String) : len s = 0 ↔ s = "" := by
  cases s with
  | mk cs =>
    cases cs with
    | nil => simp [len, String.utf8ByteSize, String.utf8ByteSize.go]
    | cons c cs =>
      have h := utf8ByteSize_go_pos c cs 0
      have hne : (String.mk (c :: cs)) ≠ "" := by
        intro hc
        have := congrArg String.data hc
        simp at this
      simp only [len, String.utf8ByteSize]
      constructor
      · intro h0; omega
      · intro h0; exact absurd h0 hne

namespace GoMap
variable {V : Type}

theorem lookupEntries_storeEntries_same (k : String) (v : V) (es : List (String × V)) :
    lookupEntries k (storeEntries k v es) = some v := by
  induction es with
  | nil => simp [storeEntries, lookupEntries]
  | cons e rest ih =>
    obtain ⟨k', v'⟩ := e
    by_cases h : k' = k
    · simp [storeEntries, lookupEntries, h]
    · simp [storeEntries, lookupEntries, h, ih]

theorem lookupEntries_storeEntries_other (k k2 : String) (v : V) (es : List (String × V))
    (hk : k2 ≠ k) : lookupEntries k2 (storeEntries k v es) = lookupEntries k2 es := by
  induction es with
  | nil => simp [storeEntries, lookupEntries, Ne.symm hk]
  | cons e rest ih =>
    obtain ⟨k', v'⟩ := e
    by_cases h : k' = k
    · subst h
      simp [storeEntries, lookupEntries, Ne.symm hk]
    · by_cases h2 : k' = k2
      · subst h2
        simp [storeEntries, lookupEntries, h]
      · simp [storeEntries, lookupEntries, h, h2, ih]

end GoMap


theorem configValue_eq_getD (ks : KnativeServing) (g k : String) :
    ks.configValue g k = (ks.configLookup? g k).getD "" := rfl

/-- When the value at the target path is not empty, `mutate` leaves the CR as it is. -/
theorem mutate_of_nonempty (ks : KnativeServing) (h : ks.configValue configmap key ≠ "") :
    mutate ks = .ok (none, ks) := by
  have hlen : ¬ len (ks.configValue configmap key) = 0 := fun h0 => h ((len_eq_zero_iff _).1 h0)
  obtain ⟨tm, om, ⟨cfg⟩, st⟩ := ks
  cases cfg with
  | nil => exact absurd rfl h
  | mk es =>
    simp only [KnativeServing.configValue] at hlen
    simp [mutate, GoMap.isNil, hlen]
    rfl

/-- When the value at the target path is empty, `mutate` returns a CR that differs
in `Spec.Config` only, where the target path now holds the default. -/
theorem mutate_of_empty (ks : KnativeServing) (h : ks.configValue configmap key = "") :
    ∃ cfg : GoMap (GoMap String),
      mutate ks = .ok (none, { ks with Spec := { Config := cfg } }) ∧
      cfg.isNil = false ∧
      (GoMap.index GoMap.nil cfg configmap).isNil = false ∧
      (GoMap.index GoMap.nil cfg configmap).lookup? key = some value ∧
      (∀ g, g ≠ configmap → cfg.lookup? g = ks.Spec.Config.lookup? g) ∧
      (∀ k, k ≠ key → (GoMap.index GoMap.nil cfg configmap).lookup? k
          = (GoMap.index GoMap.nil ks.Spec.Config configmap).lookup? k) := by
  obtain ⟨tm, om, ⟨cfg⟩, st⟩ := ks
  cases cfg with
  | nil =>
    refine ⟨GoMap.mk [(configmap, GoMap.mk [(key, value)])], ?_, rfl, ?_, ?_, ?_, ?_⟩
    · rfl
    · rfl
    · rfl
    · intro g hg
      simp [GoMap.lookup?, GoMap.lookupEntries, Ne.symm hg]
    · intro k hk
      simp [GoMap.lookup?, GoMap.lookupEntries, GoMap.index, Ne.symm hk]
  | mk es =>
    have hlen : len (GoMap.index "" (GoMap.index GoMap.nil (GoMap.mk es) configmap) key) = 0 :=
      (len_eq_zero_iff _).2 h
    cases hin : GoMap.index GoMap.nil (GoMap.mk es) configmap with
    | nil =>
      refine ⟨GoMap.mk (GoMap.storeEntries configmap (GoMap.mk [(key, value)])
          (GoMap.storeEntries configmap (GoMap.mk []) es)), ?_, rfl, ?_, ?_, ?_, ?_⟩
      · have hst : GoMap.index GoMap.nil
            (GoMap.mk (GoMap.storeEntries configmap (GoMap.mk []) es)) configmap
            = (GoMap.mk [] : GoMap String) := by
          simp [GoMap.index, GoMap.lookup?, GoMap.lookupEntries_storeEntries_same]
        have hlen2 := hlen
        rw [hin] at hlen2
        simp [mutate, GoMap.isNil, hlen2, hin, GoMap.store, hst, GoMap.storeEntries, bind,
          Except.bind, pure, Except.pure]
      · simp [GoMap.index, GoMap.lookup?, GoMap.lookupEntries_storeEntries_same, GoMap.isNil]
      · simp [GoMap.index, GoMap.lookup?, GoMap.lookupEntries_storeEntries_same,
          GoMap.lookupEntries]
      · intro g hg
        simp [GoMap.lookup?, GoMap.lookupEntries_storeEntries_other _ _ _ _ hg]
      · intro k hk
        simp [GoMap.index, GoMap.lookup?, GoMap.lookupEntries_storeEntries_same,
          GoMap.lookupEntries, Ne.symm hk]
    | mk ies =>
      have hlen2 := hlen
      rw [hin] at hlen2
      refine ⟨GoMap.mk (GoMap.storeEntries configmap (GoMap.mk (GoMap.storeEntries key value ies))
          es), ?_, rfl, ?_, ?_, ?_, ?_⟩
      · simp [mutate, GoMap.isNil, hlen2, hin, GoMap.store, bind, Except.bind, pure,
          Except.pure]
      · simp [GoMap.index, GoMap.lookup?, GoMap.lookupEntries_storeEntries_same, GoMap.isNil]
      · simp [GoMap.index, GoMap.lookup?, GoMap.lookupEntries_storeEntries_same]
      · intro g hg
        simp [GoMap.lookup?, GoMap.lookupEntries_storeEntries_other _ _ _ _ hg]
      · intro k hk
        simp [GoMap.index, GoMap.lookup?, GoMap.lookupEntries_storeEntries_same,
          GoMap.lookupEntries_storeEntries_other _ _ _ _ hk]

/-! ## The mutation rule -/

/-- The four ways in which the value at the target path is empty all make the
Go expression `ks.Spec.Config[configmap][key]` evaluate to the empty string. -/
theorem configValue_of_empty (ks : KnativeServing)
    (h : ks.Spec.Config = GoMap.nil ∨ ks.Spec.Config.lookup? configmap = none ∨
      ks.configLookup? configmap key = none ∨ ks.configLookup? configmap key = some "") :
    ks.configValue configmap key = "" := by
  rw [configValue_eq_getD]
  rcases h with h | h | h | h
  · simp [KnativeServing.configLookup?, h, GoMap.index, GoMap.lookup?]
  · simp only [KnativeServing.configLookup?, GoMap.index, h]
    rfl
  · simp [h]
  · simp [h]

/-- C1 (default injection): when the value at
`Config["network"]["istio.sidecar.includeOutboundIPRanges"]` is empty in any of
the four ways (Config unset, no "network" group, no such key in the group, the key
mapped to the empty string), `mutate` returns, with no error, a CR in which the
lookup at that path yields exactly "10.0.0.1/24" and both `Config` and
`Config["network"]` are set. -/
theorem mutate_injects_default (ks : KnativeServing)
    (h : ks.Spec.Config = GoMap.nil ∨ ks.Spec.Config.lookup? configmap = none ∨
      ks.configLookup? configmap key = none ∨ ks.configLookup? configmap key = some "") :
    ∃ ks2 : KnativeServing, mutate ks = .ok (none, ks2) ∧
      ks2.configLookup? "network" "istio.sidecar.includeOutboundIPRanges" = some "10.0.0.1/24" ∧
      ks2.configValue "network" "istio.sidecar.includeOutboundIPRanges" = "10.0.0.1/24" ∧
      ks2.Spec.Config.isNil = false ∧
      (GoMap.index GoMap.nil ks2.Spec.Config "network").isNil = false := by
  obtain ⟨cfg, hm, hnil, hinner, hval, -, -⟩ := mutate_of_empty ks (configValue_of_empty ks h)
  refine ⟨_, hm, hval, ?_, hnil, hinner⟩
  rw [configValue_eq_getD]
  exact congrArg (fun o => Option.getD o "") hval

/-- Witness for C1 on scenario S5 (the key is mapped to the empty string). -/
theorem mutate_injects_default_witness :
    (crEmptyValue.Spec.Config = GoMap.nil ∨ crEmptyValue.Spec.Config.lookup? configmap = none ∨
      crEmptyValue.configLookup? configmap key = none ∨
      crEmptyValue.configLookup? configmap key = some "") ∧
    ∃ ks2 : KnativeServing, mutate crEmptyValue = .ok (none, ks2) ∧
      ks2.configLookup? "network" "istio.sidecar.includeOutboundIPRanges" = some "10.0.0.1/24" ∧
      ks2.configValue "network" "istio.sidecar.includeOutboundIPRanges" = "10.0.0.1/24" ∧
      ks2.Spec.Config.isNil = false ∧
      (GoMap.index GoMap.nil ks2.Spec.Config "network").isNil = false :=
  ⟨Or.inr (Or.inr (Or.inr (by decide))),
    mutate_injects_default crEmptyValue (Or.inr (Or.inr (Or.inr (by decide))))⟩

/-- C2 (user-override preservation): when the lookup at the target path yields a
non-empty string `v`, `mutate` returns the CR unchanged, with no error, so the
value at that path is still `v`. -/
theorem mutate_preserves_override (ks : KnativeServing) (v : String) (hv : v ≠ "")
    (h : ks.configLookup? "network" "istio.sidecar.includeOutboundIPRanges" = some v) :
    mutate ks = .ok (none, ks) ∧
      ks.configLookup? "network" "istio.sidecar.includeOutboundIPRanges" = some v := by
  refine ⟨mutate_of_nonempty ks ?_, h⟩
  rw [configValue_eq_getD]
  have h2 : ks.configLookup? configmap key = some v := h
  rw [h2]
  exact hv

/-- Witness for C2 on scenario S4 (the user has set "192.168.0.0/16"). -/
theorem mutate_preserves_override_witness :
    ("192.168.0.0/16" ≠ "" ∧
      crUserValue.configLookup? "network" "istio.sidecar.includeOutboundIPRanges"
        = some "192.168.0.0/16") ∧
    (mutate crUserValue = .ok (none, crUserValue) ∧
      crUserValue.configLookup? "network" "istio.sidecar.includeOutboundIPRanges"
        = some "192.168.0.0/16") :=
  ⟨⟨by decide, by decide⟩,
    mutate_preserves_override crUserValue "192.168.0.0/16" (by decide) (by decide)⟩

/-- Frame of `mutate` on a CR held as a value: every lookup `Config[g][k]` off the
target path, every group other than "network", every other key of "network" and
the fields outside `Config` are as in the input. -/
theorem mutate_value_frame (ks : KnativeServing) :
    ∃ ks2 : KnativeServing, mutate ks = .ok (none, ks2) ∧
      (∀ g k : String, (g, k) ≠ ("network", "istio.sidecar.includeOutboundIPRanges") →
        ks2.configLookup? g k = ks.configLookup? g k) ∧
      (∀ g : String, g ≠ "network" → ks2.Spec.Config.lookup? g = ks.Spec.Config.lookup? g) ∧
      (∀ k : String, k ≠ "istio.sidecar.includeOutboundIPRanges" →
        (GoMap.index GoMap.nil ks2.Spec.Config "network").lookup? k
          = (GoMap.index GoMap.nil ks.Spec.Config "network").lookup? k) ∧
      ks2.TypeMeta = ks.TypeMeta ∧ ks2.ObjectMeta = ks.ObjectMeta ∧ ks2.Status = ks.Status := by
  by_cases h : ks.configValue configmap key = ""
  · obtain ⟨cfg, hm, -, -, -, hg, hk⟩ := mutate_of_empty ks h
    refine ⟨_, hm, ?_, hg, hk, rfl, rfl, rfl⟩
    intro g k hne
    by_cases hgc : g = configmap
    · subst hgc
      have hkk : k ≠ key := fun hk2 => hne (by rw [hk2]; rfl)
      exact hk k hkk
    · simp only [KnativeServing.configLookup?, GoMap.index]
      rw [hg g hgc]
  · exact ⟨ks, mutate_of_nonempty ks h, fun _ _ _ => rfl, fun _ _ => rfl, fun _ _ => rfl,
      rfl, rfl, rfl⟩

/-- Scenario S2: a group other than "network" is kept and the default is added. -/
theorem mutate_scenario_S2 :
    mutate { TypeMeta := "t", ObjectMeta := "o", Status := "s",
             Spec := { Config := GoMap.mk [("foo", GoMap.mk [("bar", "baz")])] } }
      = .ok (none,
          { TypeMeta := "t", ObjectMeta := "o", Status := "s",
            Spec := { Config := GoMap.mk [("foo", GoMap.mk [("bar", "baz")]),
              ("network", GoMap.mk [("istio.sidecar.includeOutboundIPRanges", "10.0.0.1/24")])] } }) :=
  rfl

/-- Scenario S3: another key of "network" is kept and the default is added. -/
theorem mutate_scenario_S3 :
    mutate { TypeMeta := "t", ObjectMeta := "o", Status := "s",
             Spec := { Config := GoMap.mk [("network", GoMap.mk [("other", "keep")])] } }
      = .ok (none,
          { TypeMeta := "t", ObjectMeta := "o", Status := "s",
            Spec := { Config := GoMap.mk [("network", GoMap.mk [("other", "keep"),
              ("istio.sidecar.includeOutboundIPRanges", "10.0.0.1/24")])] } }) :=
  rfl

/-- A "network" group that is present but nil is replaced by an allocated map
before the write, so the write does not panic. -/
theorem mutate_nil_group :
    mutate { TypeMeta := "t", ObjectMeta := "o", Status := "s",
             Spec := { Config := GoMap.mk [("network", GoMap.nil)] } }
      = .ok (none,
          { TypeMeta := "t", ObjectMeta := "o", Status := "s",
            Spec := { Config := GoMap.mk [("network",
              GoMap.mk [("istio.sidecar.includeOutboundIPRanges", "10.0.0.1/24")])] } }) :=
  rfl

/-- C4 (idempotence): `mutate` returns a CR on which a second `mutate` returns
the very same CR; running the mutation twice is running it once. -/
theorem mutate_idempotent (ks : KnativeServing) :
    (∃ ks2 : KnativeServing, mutate ks = .ok (none, ks2) ∧ mutate ks2 = .ok (none, ks2)) ∧
      (mutate ks >>= fun r => mutate r.2) = mutate ks := by
  have key2 : ∃ ks2 : KnativeServing, mutate ks = .ok (none, ks2) ∧
      mutate ks2 = .ok (none, ks2) := by
    by_cases h : ks.configValue configmap key = ""
    · obtain ⟨cfg, hm, -, -, hval, -, -⟩ := mutate_of_empty ks h
      refine ⟨_, hm, mutate_of_nonempty _ ?_⟩
      rw [configValue_eq_getD]
      have h2 : KnativeServing.configLookup? { ks with Spec := { Config := cfg } } configmap key
          = some value := hval
      rw [h2]
      decide
    · exact ⟨ks, mutate_of_nonempty ks h, mutate_of_nonempty ks h⟩
  refine ⟨key2, ?_⟩
  obtain ⟨ks2, h1, h2⟩ := key2
  rw [h1]
  exact h2

/-- On every CR `mutate` returns, with the nil error. -/
theorem mutate_total (ks : KnativeServing) : ∃ ks2 : KnativeServing, mutate ks = .ok (none, ks2) := by
  by_cases h : ks.configValue configmap key = ""
  · obtain ⟨cfg, hm, -⟩ := mutate_of_empty ks h
    exact ⟨_, hm⟩
  · exact ⟨ks, mutate_of_nonempty ks h⟩

/-- C7 (mutation cannot fail): on every CR `mutate` returns the nil error; it
neither returns a non-nil error nor panics on a map write, so after a successful
decode `Handle` always goes on to serialize the mutated CR and never takes the
branch that answers a mutation failure with a 400 response. -/
theorem mutate_cannot_fail (ks : KnativeServing) :
    (∃ ks2 : KnativeServing, mutate ks = .ok (none, ks2)) ∧
    (∀ (err : GoError) (ks2 : KnativeServing), mutate ks ≠ .ok (some err, ks2)) ∧
    (∀ p : GoPanic, mutate ks ≠ .error p) ∧
    (∀ (fw : Framework) (a : KnativeServingConfigurator) (req : Request),
      a.decoder req = .ok ks →
      ∃ ks2 : KnativeServing, mutate ks = .ok (none, ks2) ∧
        Handle fw a req =
          match fw.Marshal ks2 with
          | .error err => .ok (Errored 500 err)
          | .ok marshaledPod => .ok (PatchResponseFromRaw fw.CreatePatch req.Raw marshaledPod)) := by
  obtain ⟨ks2, h⟩ := mutate_total ks
  refine ⟨⟨ks2, h⟩, ?_, ?_, ?_⟩
  · intro err ks3 hc
    rw [h] at hc
    simp at hc
  · intro p hc
    rw [h] at hc
    simp at hc
  · intro fw a req hd
    refine ⟨ks2, h, ?_⟩
    simp only [Handle, hd, h]
    rfl

/-- Witness for C7: a request decoded to the CR of scenario S1 (Config unset). -/
theorem mutate_cannot_fail_witness :
    decodingConfigurator.decoder sampleRequest = .ok crConfigUnset ∧
    ∃ ks2 : KnativeServing, mutate crConfigUnset = .ok (none, ks2) ∧
      Handle workingFramework decodingConfigurator sampleRequest =
        match workingFramework.Marshal ks2 with
        | .error err => .ok (Errored 500 err)
        | .ok marshaledPod =>
          .ok (PatchResponseFromRaw workingFramework.CreatePatch sampleRequest.Raw marshaledPod) :=
  ⟨rfl, (mutate_cannot_fail crConfigUnset).2.2.2 workingFramework decodingConfigurator
    sampleRequest rfl⟩

/-! ## The mutation rule with inner maps held by reference -/

theorem freshEntries_gt (es : List (String × MapRef)) (g : String) (a : Nat)
    (h : GoMap.lookupEntries g es = some (MapRef.addr a)) : a < freshEntries es := by
  induction es with
  | nil => simp [GoMap.lookupEntries] at h
  | cons e rest ih =>
    obtain ⟨g2, r⟩ := e
    by_cases hg : g2 = g
    · simp only [GoMap.lookupEntries, hg, if_true, Option.some.injEq] at h
      subst h
      simp only [freshEntries]
      omega
    · simp only [GoMap.lookupEntries, hg, if_false] at h
      have := ih h
      cases r with
      | nil => simpa [freshEntries] using this
      | addr b =>
        simp only [freshEntries]
        omega

theorem sharedLookup_eq_getD (ks : SharedKnativeServing) (g k : String) :
    (GoMap.index MapRef.nil ks.Config g).index ks.cells k = (ks.configLookup? g k).getD "" := rfl

/-- When the value at the target path is not empty, `mutateShared` leaves the CR as
it is. -/
theorem mutateShared_of_nonempty (ks : SharedKnativeServing)
    (h : (ks.configLookup? configmap key).getD "" ≠ "") : mutateShared ks = .ok (none, ks) := by
  have hlen : ¬ len ((GoMap.index MapRef.nil ks.Config configmap).index ks.cells key) = 0 :=
    fun h0 => h ((len_eq_zero_iff _).1 h0)
  obtain ⟨tm, om, cfg, st, cells⟩ := ks
  cases cfg with
  | nil => exact absurd rfl h
  | mk es =>
    simp only at hlen
    simp [mutateShared, GoMap.isNil, hlen]
    rfl


/-- When the value at the target path is empty and no other group holds the inner
map of "network", `mutateShared` changes `Config` and the cells so that the target
path holds the default and everything else reads as before. -/
theorem mutateShared_of_empty (ks : SharedKnativeServing)
    (h : (ks.configLookup? configmap key).getD "" = "")
    (hns : ∀ (g : String) (a : Nat), g ≠ configmap →
      ks.Config.lookup? configmap = some (MapRef.addr a) →
      ks.Config.lookup? g ≠ some (MapRef.addr a)) :
    ∃ (cfg : GoMap MapRef) (cells : Cells),
      mutateShared ks = .ok (none, { ks with Config := cfg, cells := cells }) ∧
      cfg.isNil = false ∧
      (GoMap.index MapRef.nil cfg configmap).isNil = false ∧
      (GoMap.index MapRef.nil cfg configmap).lookup? cells key = some value ∧
      (∀ g, g ≠ configmap → cfg.lookup? g = ks.Config.lookup? g ∧
        ∀ a, ks.Config.lookup? g = some (MapRef.addr a) → cells a = ks.cells a) ∧
      (∀ k, k ≠ key → (GoMap.index MapRef.nil cfg configmap).lookup? cells k
          = (GoMap.index MapRef.nil ks.Config configmap).lookup? ks.cells k) := by
  obtain ⟨tm, om, cfg, st, cells⟩ := ks
  cases cfg with
  | nil =>
    refine ⟨GoMap.mk [(configmap, MapRef.addr 0)],
      setCell (setCell cells 0 []) 0 [(key, value)], ?_, rfl, rfl, ?_, ?_, ?_⟩
    · rfl
    · simp [GoMap.index, GoMap.lookup?, GoMap.lookupEntries, MapRef.lookup?, setCell]
    · intro g hg
      simp [GoMap.lookup?, GoMap.lookupEntries, Ne.symm hg]
    · intro k hk
      simp [GoMap.lookup?, GoMap.lookupEntries, GoMap.index, MapRef.lookup?, setCell,
        Ne.symm hk]
  | mk es =>
    have hlen : len ((GoMap.index MapRef.nil (GoMap.mk es) configmap).index cells key) = 0 :=
      (len_eq_zero_iff _).2 h
    cases hin : GoMap.index MapRef.nil (GoMap.mk es) configmap with
    | nil =>
      have hlen2 := hlen
      rw [hin] at hlen2
      have hst : GoMap.index MapRef.nil
          (GoMap.mk (GoMap.storeEntries configmap (MapRef.addr (freshEntries es)) es)) configmap
          = MapRef.addr (freshEntries es) := by
        simp [GoMap.index, GoMap.lookup?, GoMap.lookupEntries_storeEntries_same]
      refine ⟨GoMap.mk (GoMap.storeEntries configmap (MapRef.addr (freshEntries es)) es),
        setCell (setCell cells (freshEntries es) []) (freshEntries es) [(key, value)],
        ?_, rfl, ?_, ?_, ?_, ?_⟩
      · simp [mutateShared, GoMap.isNil, hlen2, hin, GoMap.store, hst, MapRef.isNil,
          MapRef.store, freshAddr, setCell, GoMap.storeEntries, bind, Except.bind, pure,
          Except.pure]
      · rw [hst]; rfl
      · rw [hst]
        simp [MapRef.lookup?, setCell, GoMap.lookupEntries]
      · intro g hg
        refine ⟨?_, ?_⟩
        · simp [GoMap.lookup?, GoMap.lookupEntries_storeEntries_other _ _ _ _ hg]
        · intro a ha
          have hlt := freshEntries_gt es g a ha
          have hne : a ≠ freshEntries es := by omega
          simp [setCell, hne]
      · intro k hk
        rw [hst]
        simp [MapRef.lookup?, setCell, GoMap.lookupEntries, Ne.symm hk]
    | addr a =>
      have hlen2 := hlen
      rw [hin] at hlen2
      have hlk : GoMap.lookupEntries configmap es = some (MapRef.addr a) := by
        cases hl : GoMap.lookupEntries configmap es with
        | none => simp [GoMap.index, GoMap.lookup?, hl] at hin
        | some r =>
          simp only [GoMap.index, GoMap.lookup?, hl, Option.getD_some] at hin
          rw [hin]
      refine ⟨GoMap.mk es, setCell cells a (GoMap.storeEntries key value (cells a)),
        ?_, rfl, ?_, ?_, ?_, ?_⟩
      · simp [mutateShared, GoMap.isNil, hlen2, hin, MapRef.isNil, MapRef.store, bind,
          Except.bind, pure, Except.pure]
      · rw [hin]; rfl
      · rw [hin]
        simp [MapRef.lookup?, setCell, GoMap.lookupEntries_storeEntries_same]
      · intro g hg
        refine ⟨rfl, ?_⟩
        intro b hb
        have hne : b ≠ a := by
          intro hba
          subst hba
          exact hns g b hg hlk hb
        simp [setCell, hne]
      · intro k hk
        rw [hin]
        simp [MapRef.lookup?, setCell, GoMap.lookupEntries_storeEntries_other _ _ _ _ hk]


theorem lookupEntries_map_deref (cells : Cells) (g : String) (es : List (String × MapRef)) :
    GoMap.lookupEntries g (es.map fun e => (e.1, derefMap cells e.2))
      = (GoMap.lookupEntries g es).map (derefMap cells) := by
  induction es with
  | nil => rfl
  | cons e rest ih =>
    obtain ⟨g2, r⟩ := e
    by_cases hg : g2 = g
    · simp [GoMap.lookupEntries, hg]
    · simp [GoMap.lookupEntries, hg, ih]

/-- Reading the CR out as a value does not change any lookup. -/
theorem toValue_configLookup (ks : SharedKnativeServing) (g k : String) :
    ks.toValue.configLookup? g k = ks.configLookup? g k := by
  obtain ⟨tm, om, cfg, st, cells⟩ := ks
  cases cfg with
  | nil => rfl
  | mk es =>
    simp only [SharedKnativeServing.toValue, KnativeServing.configLookup?,
      SharedKnativeServing.configLookup?, GoMap.index, GoMap.lookup?, lookupEntries_map_deref]
    cases hl : GoMap.lookupEntries g es with
    | none => rfl
    | some r =>
      cases r with
      | nil => rfl
      | addr a => rfl

/-- Frame of `mutateShared` when no other group holds the inner map of "network". -/
theorem mutateShared_frame_aux (ks : SharedKnativeServing)
    (hns : ∀ (g : String) (a : Nat), g ≠ configmap →
      ks.Config.lookup? configmap = some (MapRef.addr a) →
      ks.Config.lookup? g ≠ some (MapRef.addr a)) :
    ∃ ks2 : SharedKnativeServing, mutateShared ks = .ok (none, ks2) ∧
      (∀ g k : String, (g, k) ≠ (configmap, key) →
        ks2.configLookup? g k = ks.configLookup? g k) ∧
      (∀ g : String, g ≠ configmap → ks2.Config.lookup? g = ks.Config.lookup? g ∧
        ∀ a : Nat, ks.Config.lookup? g = some (MapRef.addr a) → ks2.cells a = ks.cells a) ∧
      (∀ k : String, k ≠ key →
        (GoMap.index MapRef.nil ks2.Config configmap).lookup? ks2.cells k
          = (GoMap.index MapRef.nil ks.Config configmap).lookup? ks.cells k) ∧
      ks2.TypeMeta = ks.TypeMeta ∧ ks2.ObjectMeta = ks.ObjectMeta ∧ ks2.Status = ks.Status ∧
      (((ks.configLookup? configmap key).getD "" = "" →
          ks2.configLookup? configmap key = some value) ∧
        ((ks.configLookup? configmap key).getD "" ≠ "" → ks2 = ks)) := by
  by_cases h : (ks.configLookup? configmap key).getD "" = ""
  · obtain ⟨cfg, cells, hm, -, -, hval, hg, hk⟩ := mutateShared_of_empty ks h hns
    refine ⟨_, hm, ?_, hg, hk, rfl, rfl, rfl, fun _ => hval, fun hne => absurd h hne⟩
    intro g k hne
    by_cases hgc : g = configmap
    · subst hgc
      have hkk : k ≠ key := fun hk2 => hne (by rw [hk2])
      exact hk k hkk
    · obtain ⟨h1, h2⟩ := hg g hgc
      simp only [SharedKnativeServing.configLookup?, GoMap.index]
      rw [h1]
      cases hl : ks.Config.lookup? g with
      | none => rfl
      | some r =>
        cases r with
        | nil => rfl
        | addr a =>
          simp only [Option.getD_some, MapRef.lookup?]
          rw [h2 a hl]
  · exact ⟨ks, mutateShared_of_nonempty ks h, fun _ _ _ => rfl, fun _ _ => ⟨rfl, fun _ _ => rfl⟩,
      fun _ _ => rfl, rfl, rfl, rfl, fun he => absurd he h, fun _ => rfl⟩

/-- On a CR in which no other group holds the inner map of "network", `mutate` on
the CR read out as a value and `mutateShared` on the CR itself return CRs with the
same lookups and the same fields outside `Config`. -/
theorem mutateShared_agrees_with_mutate (ks : SharedKnativeServing)
    (hns : ∀ (g : String) (a : Nat), g ≠ configmap →
      ks.Config.lookup? configmap = some (MapRef.addr a) →
      ks.Config.lookup? g ≠ some (MapRef.addr a)) :
    ∃ (ks2 : SharedKnativeServing) (v2 : KnativeServing),
      mutateShared ks = .ok (none, ks2) ∧ mutate ks.toValue = .ok (none, v2) ∧
      (∀ g k : String, ks2.configLookup? g k = v2.configLookup? g k) ∧
      ks2.TypeMeta = v2.TypeMeta ∧ ks2.ObjectMeta = v2.ObjectMeta ∧ ks2.Status = v2.Status := by
  obtain ⟨ks2, hm, hgk, -, -, h1, h2, h3, hval, hsame⟩ := mutateShared_frame_aux ks hns
  obtain ⟨v2, hv, hvgk, -, -, h4, h5, h6⟩ := mutate_value_frame ks.toValue
  refine ⟨ks2, v2, hm, hv, ?_, by rw [h1, h4]; rfl, by rw [h2, h5]; rfl, by rw [h3, h6]; rfl⟩
  intro g k
  by_cases hne : (g, k) = (configmap, key)
  · cases hne
    by_cases he : (ks.configLookup? configmap key).getD "" = ""
    · rw [hval he]
      have he2 : ks.toValue.configValue configmap key = "" := by
        rw [configValue_eq_getD, toValue_configLookup]
        exact he
      obtain ⟨cfg, hm2, -, -, hval2, -, -⟩ := mutate_of_empty ks.toValue he2
      rw [hm2] at hv
      cases hv
      exact hval2.symm
    · rw [hsame he]
      have he2 : ks.toValue.configValue configmap key ≠ "" := by
        rw [configValue_eq_getD, toValue_configLookup]
        exact he
      rw [mutate_of_nonempty ks.toValue he2] at hv
      cases hv
      exact (toValue_configLookup ks configmap key).symm
  · rw [hgk g k hne, hvgk g k hne, toValue_configLookup]

/-- C3, the claim as stated fails: when "network" and "other" hold one and the same
inner map, the write of `mutate` goes through the shared map, and the lookup
`Config["other"]["istio.sidecar.includeOutboundIPRanges"]`, absent in the input,
yields "10.0.0.1/24" in the output. -/
theorem mutateShared_writes_shared_group :
    crSharedInner.configLookup? "other" "istio.sidecar.includeOutboundIPRanges" = none ∧
    (mutateShared crSharedInner).toOption.map
        (fun r => (r.1, r.2.configLookup? "other" "istio.sidecar.includeOutboundIPRanges"))
      = some (none, some "10.0.0.1/24") := by
  decide

/-- C3 (amended, minimal mutation): for every Serving CR in which no group other
than "network" holds the inner map that "network" holds, `mutate` returns a CR in
which every lookup `Config[g][k]` with `(g, k)` other than the target path is as in
the input, every group other than "network" is as in the input (present with the
same map and the same content, or absent), every key of "network" other than the
target key is as in the input, and the fields outside `Config` are unchanged. -/
theorem mutateShared_frame (ks : SharedKnativeServing)
    (hns : ∀ (g : String) (a : Nat), g ≠ "network" →
      ks.Config.lookup? "network" = some (MapRef.addr a) →
      ks.Config.lookup? g ≠ some (MapRef.addr a)) :
    ∃ ks2 : SharedKnativeServing, mutateShared ks = .ok (none, ks2) ∧
      (∀ g k : String, (g, k) ≠ ("network", "istio.sidecar.includeOutboundIPRanges") →
        ks2.configLookup? g k = ks.configLookup? g k) ∧
      (∀ g : String, g ≠ "network" → ks2.Config.lookup? g = ks.Config.lookup? g ∧
        ∀ a : Nat, ks.Config.lookup? g = some (MapRef.addr a) → ks2.cells a = ks.cells a) ∧
      (∀ k : String, k ≠ "istio.sidecar.includeOutboundIPRanges" →
        (GoMap.index MapRef.nil ks2.Config "network").lookup? ks2.cells k
          = (GoMap.index MapRef.nil ks.Config "network").lookup? ks.cells k) ∧
      ks2.TypeMeta = ks.TypeMeta ∧ ks2.ObjectMeta = ks.ObjectMeta ∧ ks2.Status = ks.Status := by
  obtain ⟨ks2, hm, h1, h2, h3, h4, h5, h6, -⟩ := mutateShared_frame_aux ks hns
  exact ⟨ks2, hm, h1, h2, h3, h4, h5, h6⟩

/-- Witness for C3 (amended): "network" and "other" hold two different inner maps. -/
theorem mutateShared_frame_witness :
    (∀ (g : String) (a : Nat), g ≠ "network" →
      crSeparateInner.Config.lookup? "network" = some (MapRef.addr a) →
      crSeparateInner.Config.lookup? g ≠ some (MapRef.addr a)) ∧
    ∃ ks2 : SharedKnativeServing, mutateShared crSeparateInner = .ok (none, ks2) ∧
      (∀ g k : String, (g, k) ≠ ("network", "istio.sidecar.includeOutboundIPRanges") →
        ks2.configLookup? g k = crSeparateInner.configLookup? g k) ∧
      (∀ g : String, g ≠ "network" →
        ks2.Config.lookup? g = crSeparateInner.Config.lookup? g ∧
        ∀ a : Nat, crSeparateInner.Config.lookup? g = some (MapRef.addr a) →
          ks2.cells a = crSeparateInner.cells a) ∧
      (∀ k : String, k ≠ "istio.sidecar.includeOutboundIPRanges" →
        (GoMap.index MapRef.nil ks2.Config "network").lookup? ks2.cells k
          = (GoMap.index MapRef.nil crSeparateInner.Config "network").lookup?
              crSeparateInner.cells k) ∧
      ks2.TypeMeta = crSeparateInner.TypeMeta ∧ ks2.ObjectMeta = crSeparateInner.ObjectMeta ∧
      ks2.Status = crSeparateInner.Status :=
  have hns : ∀ (g : String) (a : Nat), g ≠ "network" →
      crSeparateInner.Config.lookup? "network" = some (MapRef.addr a) →
      crSeparateInner.Config.lookup? g ≠ some (MapRef.addr a) := by
    intro g a hg h1 h2
    have ha : a = 0 := by
      simp [crSeparateInner, GoMap.lookup?, GoMap.lookupEntries] at h1
      exact h1.symm
    subst ha
    simp only [crSeparateInner, GoMap.lookup?, GoMap.lookupEntries, Ne.symm hg, if_false] at h2
    by_cases ho : "other" = g
    · simp [ho] at h2
    · simp [ho] at h2
  ⟨hns, mutateShared_frame crSeparateInner hns⟩

/-! ## `Handle` -/

/-- C5 (error-to-status mapping of `Handle`): when decoding fails with error `e`,
`Handle` returns the errored response with allowed=false, code 400 and the message
of `e`, whatever the serializer and the patch computation would do; when decoding
succeeds and serializing the mutated CR fails with error `e`, `Handle` returns the
errored response with allowed=false and code 500. -/
theorem Handle_error_mapping (fw : Framework) (a : KnativeServingConfigurator) (req : Request) :
    (∀ e : GoError, a.decoder req = .error e →
      Handle fw a req = .ok (Errored StatusBadRequest e) ∧
      Errored StatusBadRequest e
        = { Allowed := false, Result := some { Code := 400, Message := e.msg }, Patches := [] } ∧
      ∀ fw2 : Framework, Handle fw2 a req = Handle fw a req) ∧
    (∀ ks : KnativeServing, a.decoder req = .ok ks →
      ∃ ks2 : KnativeServing, mutate ks = .ok (none, ks2) ∧
        ∀ e : GoError, fw.Marshal ks2 = .error e →
          Handle fw a req = .ok (Errored StatusInternalServerError e) ∧
          Errored StatusInternalServerError e
            = { Allowed := false, Result := some { Code := 500, Message := e.msg },
                Patches := [] }) := by
  constructor
  · intro e hd
    refine ⟨?_, rfl, ?_⟩
    · simp only [Handle, hd]
    · intro fw2
      simp only [Handle, hd]
  · intro ks hd
    obtain ⟨ks2, h⟩ := mutate_total ks
    refine ⟨ks2, h, ?_⟩
    intro e hs
    refine ⟨?_, rfl⟩
    simp only [Handle, hd, h, hs]

/-- Witness for C5: a decoder that rejects the request, and a serializer that
fails on the mutated CR of scenario S1. -/
theorem Handle_error_mapping_witness :
    rejectingConfigurator.decoder sampleRequest
      = .error { msg := "unexpected end of JSON input" } ∧
    Handle workingFramework rejectingConfigurator sampleRequest
      = .ok { Allowed := false,
              Result := some { Code := 400, Message := "unexpected end of JSON input" },
              Patches := [] } ∧
    decodingConfigurator.decoder sampleRequest = .ok crConfigUnset ∧
    ∃ ks2 : KnativeServing, mutate crConfigUnset = .ok (none, ks2) ∧
      ∀ e : GoError, brokenMarshalFramework.Marshal ks2 = .error e →
        Handle brokenMarshalFramework decodingConfigurator sampleRequest
          = .ok (Errored StatusInternalServerError e) ∧
        Errored StatusInternalServerError e
          = { Allowed := false, Result := some { Code := 500, Message := e.msg },
              Patches := [] } :=
  ⟨rfl,
    ((Handle_error_mapping workingFramework rejectingConfigurator sampleRequest).1
      { msg := "unexpected end of JSON input" } rfl).1,
    rfl,
    (Handle_error_mapping brokenMarshalFramework decodingConfigurator sampleRequest).2
      crConfigUnset rfl⟩

/-- Whether a run of `Handle` ended in a response that is allowed. -/
theorem Handle_allowed_iff (fw : Framework) (a : KnativeServingConfigurator) (req : Request) :
    ∃ r : Response, Handle fw a req = .ok r ∧
      (r.Allowed = true ↔
        ∃ (ks ks2 : KnativeServing) (b : Bytes) (patches : List JSONPatchOperation),
          a.decoder req = .ok ks ∧ mutate ks = .ok (none, ks2) ∧ fw.Marshal ks2 = .ok b ∧
          fw.CreatePatch req.Raw b = .ok patches) := by
  cases hd : a.decoder req with
  | error e =>
    refine ⟨Errored StatusBadRequest e, by simp only [Handle, hd], ?_⟩
    simp [Errored]
  | ok ks =>
    obtain ⟨ks2, h⟩ := mutate_total ks
    cases hs : fw.Marshal ks2 with
    | error e =>
      refine ⟨Errored StatusInternalServerError e, by simp only [Handle, hd, h, hs], ?_⟩
      simp only [Errored, Bool.false_eq_true, false_iff, not_exists]
      intro ks3 ks4 b patches hc
      obtain ⟨h1, h2, h3, -⟩ := hc
      cases h1
      rw [h] at h2
      cases h2
      rw [hs] at h3
      cases h3
    | ok b =>
      refine ⟨PatchResponseFromRaw fw.CreatePatch req.Raw b, by simp only [Handle, hd, h, hs], ?_⟩
      cases hp : fw.CreatePatch req.Raw b with
      | error e =>
        simp only [PatchResponseFromRaw, hp, Errored, Bool.false_eq_true, false_iff, not_exists]
        intro ks3 ks4 b2 patches hc
        obtain ⟨h1, h2, h3, h4⟩ := hc
        cases h1
        rw [h] at h2
        cases h2
        rw [hs] at h3
        cases h3
        rw [hp] at h4
        cases h4
      | ok patches =>
        simp only [PatchResponseFromRaw, hp, true_iff]
        exact ⟨ks, ks2, b, patches, rfl, h, hs, hp⟩

/-- C6 (success path of `Handle`): when decoding yields a CR `ks` and serializing
the mutated CR yields bytes `b`, `Handle` returns exactly
`PatchResponseFromRaw(req.Object.Raw, b)`; and the response of `Handle` is allowed
if and only if none of decode, mutate, serialize and patch computation reported an
error. -/
theorem Handle_success (fw : Framework) (a : KnativeServingConfigurator) (req : Request) :
    (∀ ks : KnativeServing, a.decoder req = .ok ks →
      ∃ ks2 : KnativeServing, mutate ks = .ok (none, ks2) ∧
        ∀ b : Bytes, fw.Marshal ks2 = .ok b →
          Handle fw a req = .ok (PatchResponseFromRaw fw.CreatePatch req.Raw b)) ∧
    (∃ r : Response, Handle fw a req = .ok r ∧
      (r.Allowed = true ↔
        ∃ (ks ks2 : KnativeServing) (b : Bytes) (patches : List JSONPatchOperation),
          a.decoder req = .ok ks ∧ mutate ks = .ok (none, ks2) ∧ fw.Marshal ks2 = .ok b ∧
          fw.CreatePatch req.Raw b = .ok patches)) := by
  refine ⟨?_, Handle_allowed_iff fw a req⟩
  intro ks hd
  obtain ⟨ks2, h⟩ := mutate_total ks
  refine ⟨ks2, h, ?_⟩
  intro b hs
  simp only [Handle, hd, h, hs]

/-- Witness for C6: the request decoded to the CR of scenario S1, with a working
serializer. -/
theorem Handle_success_witness :
    decodingConfigurator.decoder sampleRequest = .ok crConfigUnset ∧
    ∃ ks2 : KnativeServing, mutate crConfigUnset = .ok (none, ks2) ∧
      ∀ b : Bytes, workingFramework.Marshal ks2 = .ok b →
        Handle workingFramework decodingConfigurator sampleRequest
          = .ok (PatchResponseFromRaw workingFramework.CreatePatch sampleRequest.Raw b) :=
  ⟨rfl, (Handle_success workingFramework decodingConfigurator sampleRequest).1 crConfigUnset rfl⟩

/-! ## The probe -/

/-- C8 (environment probe): `runningOnOpenshift` returns true if and only if the
client is constructed and the LIST of `route.openshift.io/v1` kind `route` returns
no error; it returns false when the LIST fails with a no-match error (nothing is
logged), false when it fails with any other error (the failure is logged), and
false when the client cannot be constructed (logged); its only result is the
boolean. -/
theorem runningOnOpenshift_spec (api : ClusterAPI) (cfg : RestConfig) :
    ((runningOnOpenshift api cfg).1 = true ↔
      ∃ c : Client, api.New cfg = .ok c ∧
        api.List c { Group := "route.openshift.io", Version := "v1", Kind := "route" } = none) ∧
    (∀ (c : Client) (err : GoError), api.New cfg = .ok c →
      api.List c { Group := "route.openshift.io", Version := "v1", Kind := "route" } = some err →
      api.IsNoMatchError err = true →
      runningOnOpenshift api cfg = (false, [])) ∧
    (∀ (c : Client) (err : GoError), api.New cfg = .ok c →
      api.List c { Group := "route.openshift.io", Version := "v1", Kind := "route" } = some err →
      api.IsNoMatchError err = false →
      runningOnOpenshift api cfg
        = (false, [LogEntry.error "webhook" err "Unable to query for OpenShift Route"])) ∧
    (∀ err : GoError, api.New cfg = .error err →
      runningOnOpenshift api cfg = (false, [LogEntry.error "webhook" err "Can't create client"])) := by
  refine ⟨?_, ?_, ?_, ?_⟩
  · cases hn : api.New cfg with
    | error err => simp [runningOnOpenshift, hn]
    | ok c =>
      cases hl : api.List c routeGVK with
      | none =>
        simp only [runningOnOpenshift, hn, hl, true_iff]
        exact ⟨c, rfl, hl⟩
      | some err =>
        simp only [runningOnOpenshift, hn, hl, Bool.false_eq_true, false_iff, not_exists, not_and]
        intro c2 hc hl2
        cases hc
        have hl3 : api.List c routeGVK = none := hl2
        rw [hl] at hl3
        cases hl3
  · intro c err hn hl hm
    have hl2 : api.List c routeGVK = some err := hl
    simp [runningOnOpenshift, hn, hl2, hm]
  · intro c err hn hl hm
    have hl2 : api.List c routeGVK = some err := hl
    simp [runningOnOpenshift, hn, hl2, hm]
  · intro err hn
    simp [runningOnOpenshift, hn]

/-- Witness for C8: the probe on a vanilla cluster (scenario S6), whose LIST fails
with a no-match error. -/
theorem runningOnOpenshift_spec_witness :
    vanillaCluster.New freshManager.config = .ok { id := "https://cluster.local" } ∧
    vanillaCluster.List { id := "https://cluster.local" }
      { Group := "route.openshift.io", Version := "v1", Kind := "route" }
      = some { msg := "no matches for kind" } ∧
    vanillaCluster.IsNoMatchError { msg := "no matches for kind" } = true ∧
    runningOnOpenshift vanillaCluster freshManager.config = (false, []) :=
  ⟨rfl, rfl, by decide,
    (runningOnOpenshift_spec vanillaCluster freshManager.config).2.1
      { id := "https://cluster.local" } { msg := "no matches for kind" } rfl rfl (by decide)⟩

/-! ## `AddToManager` -/

/-- The installers that were called are an initial segment of the list; the
segment is the whole list unless an error ended the loop. -/
theorem runInstallers_invoked (funcs : List Installer) (m : Manager) :
    ∃ rest : List Installer, funcs = (runInstallers funcs m).invoked ++ rest ∧
      ((runInstallers funcs m).err = none → rest = []) ∧
      (funcs ≠ [] → (runInstallers funcs m).invoked ≠ []) := by
  induction funcs generalizing m with
  | nil => exact ⟨[], rfl, fun _ => rfl, fun h => absurd rfl h⟩
  | cons f fs ih =>
    rcases hf : f m with ⟨e, m1, l⟩
    cases e with
    | some err =>
      refine ⟨fs, ?_, ?_, ?_⟩
      · simp [runInstallers, hf]
      · simp [runInstallers, hf]
      · simp [runInstallers, hf]
    | none =>
      obtain ⟨rest, h1, h2, -⟩ := ih m1
      refine ⟨rest, ?_, ?_, ?_⟩
      · simp only [runInstallers, hf, List.cons_append]
        exact congrArg (List.cons f) h1
      · simp only [runInstallers, hf]
        exact h2
      · simp [runInstallers, hf]

/-- An error returned by the loop is the error of an installer of the list, and it
has been logged. -/
theorem runInstallers_err (funcs : List Installer) (m : Manager) (e : GoError)
    (h : (runInstallers funcs m).err = some e) :
    (∃ f ∈ funcs, ∃ m1 : Manager, (f m1).1 = some e) ∧
      LogEntry.error "webhook" e "Unable to setup webhook" ∈ (runInstallers funcs m).logs := by
  induction funcs generalizing m with
  | nil => simp [runInstallers] at h
  | cons f fs ih =>
    rcases hf : f m with ⟨e2, m1, l⟩
    cases e2 with
    | some err =>
      simp only [runInstallers, hf, Option.some.injEq] at h
      subst h
      refine ⟨⟨f, List.mem_cons_self _ _, m, by rw [hf]⟩, ?_⟩
      simp [runInstallers, hf]
    | none =>
      simp only [runInstallers, hf] at h
      obtain ⟨⟨g, hg, m2, hg2⟩, hlog⟩ := ih m1 h
      refine ⟨⟨g, List.mem_cons_of_mem _ hg, m2, hg2⟩, ?_⟩
      simp only [runInstallers, hf, List.mem_append]
      exact Or.inr hlog

/-- When no installer of the list ever fails, the loop returns the nil error. -/
theorem runInstallers_ok (funcs : List Installer) (m : Manager)
    (h : ∀ f ∈ funcs, ∀ m1 : Manager, (f m1).1 = none) : (runInstallers funcs m).err = none := by
  induction funcs generalizing m with
  | nil => rfl
  | cons f fs ih =>
    rcases hf : f m with ⟨e2, m1, l⟩
    have h0 := h f (List.mem_cons_self _ _) m
    rw [hf] at h0
    simp only at h0
    subst h0
    simp only [runInstallers, hf]
    exact ih m1 (fun g hg m2 => h g (List.mem_cons_of_mem _ hg) m2)

/-- The two ways `AddToManager` can go, by the outcome of the probe. -/
theorem AddToManager_cases (api : ClusterAPI) (funcs : List Installer) (m : Manager) :
    ((runningOnOpenshift api m.GetConfig).1 = false ∧
      (AddToManager api funcs m).err = none ∧ (AddToManager api funcs m).mgr = m ∧
      (AddToManager api funcs m).invoked = []) ∨
    ((runningOnOpenshift api m.GetConfig).1 = true ∧
      (AddToManager api funcs m).err = (runInstallers funcs m).err ∧
      (AddToManager api funcs m).mgr = (runInstallers funcs m).mgr ∧
      (AddToManager api funcs m).invoked = (runInstallers funcs m).invoked ∧
      ∀ x ∈ (runInstallers funcs m).logs, x ∈ (AddToManager api funcs m).logs) := by
  rcases hp : runningOnOpenshift api m.GetConfig with ⟨b, l⟩
  cases b with
  | false =>
    left
    simp [AddToManager, hp]
  | true =>
    right
    simp only [AddToManager, hp, true_and]
    intro x hx
    exact List.mem_append_right _ hx

/-- The loop after installers that all return the nil error: it goes on with the
rest of the list, on the manager those installers leave. -/
theorem runInstallers_append (pre rest : List Installer) (m : Manager)
    (hpre : ∀ (pre1 : List Installer) (g : Installer) (post1 : List Installer),
      pre = pre1 ++ g :: post1 →
      (g (pre1.foldl (fun (acc : Manager) (i : Installer) => (i acc).2.1) m)).1 = none) :
    (runInstallers (pre ++ rest) m).err
      = (runInstallers rest (pre.foldl (fun (acc : Manager) (i : Installer) => (i acc).2.1) m)).err ∧
    (runInstallers (pre ++ rest) m).mgr
      = (runInstallers rest (pre.foldl (fun (acc : Manager) (i : Installer) => (i acc).2.1) m)).mgr ∧
    (runInstallers (pre ++ rest) m).invoked
      = pre ++ (runInstallers rest
          (pre.foldl (fun (acc : Manager) (i : Installer) => (i acc).2.1) m)).invoked ∧
    ∀ x ∈ (runInstallers rest
        (pre.foldl (fun (acc : Manager) (i : Installer) => (i acc).2.1) m)).logs,
      x ∈ (runInstallers (pre ++ rest) m).logs := by
  induction pre generalizing m with
  | nil => exact ⟨rfl, rfl, rfl, fun _ hx => hx⟩
  | cons g pre2 ih =>
    have hg : (g m).1 = none := hpre [] g pre2 rfl
    rcases hf : g m with ⟨e, m1, l⟩
    rw [hf] at hg
    simp only at hg
    subst hg
    have hm1 : (g m).2.1 = m1 := by rw [hf]
    have hpre2 : ∀ (pre1 : List Installer) (h : Installer) (post1 : List Installer),
        pre2 = pre1 ++ h :: post1 →
        (h (pre1.foldl (fun (acc : Manager) (i : Installer) => (i acc).2.1) m1)).1 = none := by
      intro pre1 h post1 hsplit
      have := hpre (g :: pre1) h post1 (by rw [hsplit]; rfl)
      simpa only [List.foldl_cons, hm1] using this
    obtain ⟨h1, h2, h3, h4⟩ := ih m1 hpre2
    simp only [List.cons_append, runInstallers, hf, List.foldl_cons, hm1]
    refine ⟨h1, h2, congrArg (List.cons g) h3, ?_⟩
    intro x hx
    exact List.mem_append_right _ (h4 x hx)

/-- An installer that returns an error ends the loop: its error is returned and
logged, and it is the last installer called. -/
theorem runInstallers_head_error (f : Installer) (post : List Installer) (m : Manager)
    (e : GoError) (h : (f m).1 = some e) :
    (runInstallers (f :: post) m).err = some e ∧
    (runInstallers (f :: post) m).mgr = (f m).2.1 ∧
    (runInstallers (f :: post) m).invoked = [f] ∧
    LogEntry.error "webhook" e "Unable to setup webhook" ∈ (runInstallers (f :: post) m).logs := by
  rcases hf : f m with ⟨e2, m1, l⟩
  rw [hf] at h
  simp only at h
  subst h
  simp [runInstallers, hf]

/-- An error returned by the loop is the error of the first installer that fails
when the installers are called in list order, each on the manager left by the
ones before it. -/
theorem runInstallers_first_error (funcs : List Installer) (m : Manager) (e : GoError)
    (h : (runInstallers funcs m).err = some e) :
    ∃ (pre : List Installer) (f : Installer) (post : List Installer),
      funcs = pre ++ f :: post ∧
      (∀ (pre1 : List Installer) (g : Installer) (post1 : List Installer),
        pre = pre1 ++ g :: post1 →
        (g (pre1.foldl (fun (acc : Manager) (i : Installer) => (i acc).2.1) m)).1 = none) ∧
      (f (pre.foldl (fun (acc : Manager) (i : Installer) => (i acc).2.1) m)).1 = some e := by
  induction funcs generalizing m with
  | nil => simp [runInstallers] at h
  | cons f fs ih =>
    rcases hf : f m with ⟨e2, m1, l⟩
    cases e2 with
    | some err =>
      simp only [runInstallers, hf, Option.some.injEq] at h
      subst h
      refine ⟨[], f, fs, rfl, ?_, by simp [hf]⟩
      intro pre1 g post1 hsplit
      simp at hsplit
    | none =>
      simp only [runInstallers, hf] at h
      have hm1 : (f m).2.1 = m1 := by rw [hf]
      obtain ⟨pre, f2, post, hsplit, hpre, hfail⟩ := ih m1 h
      refine ⟨f :: pre, f2, post, by rw [hsplit]; rfl, ?_, ?_⟩
      · intro pre1 g post1 hs
        cases pre1 with
        | nil =>
          simp only [List.nil_append, List.cons.injEq] at hs
          obtain ⟨hfg, -⟩ := hs
          subst hfg
          simp [hf]
        | cons x pre3 =>
          simp only [List.cons_append, List.cons.injEq] at hs
          obtain ⟨hx, hs2⟩ := hs
          subst hx
          simpa only [List.foldl_cons, hm1] using hpre pre3 g post1 hs2
      · simpa only [List.foldl_cons, hm1] using hfail

/-- When every installer returns the nil error as the loop reaches it, the loop
calls them all and returns the nil error. -/
theorem runInstallers_all_ok (funcs : List Installer) (m : Manager)
    (hall : ∀ (pre1 : List Installer) (g : Installer) (post1 : List Installer),
      funcs = pre1 ++ g :: post1 →
      (g (pre1.foldl (fun (acc : Manager) (i : Installer) => (i acc).2.1) m)).1 = none) :
    (runInstallers funcs m).err = none ∧
    (runInstallers funcs m).invoked = funcs ∧
    (runInstallers funcs m).mgr
      = funcs.foldl (fun (acc : Manager) (i : Installer) => (i acc).2.1) m := by
  obtain ⟨h1, h2, h3, -⟩ := runInstallers_append funcs [] m hall
  rw [List.append_nil] at h1 h2 h3
  refine ⟨by rw [h1]; rfl, by rw [h3]; simp [runInstallers], by rw [h2]; rfl⟩

/-- The installer `knativeserving.Add` returns the nil error and mounts one hook. -/
theorem Add_spec (m : Manager) :
    (Add m).1 = none ∧ (Add m).2.1.config = m.config ∧
      (Add m).2.1.webhookServer.webhooks
        = m.webhookServer.webhooks
          ++ [("/mutate-v1alpha1-knativeserving", { Handler := .knativeServingConfigurator })] :=
  ⟨rfl, rfl, rfl⟩

/-- The loop over the registered list calls `knativeserving.Add` and nothing else. -/
theorem runInstallers_registered (m : Manager) :
    (runInstallers AddToManagerFuncs m).err = none ∧
      (runInstallers AddToManagerFuncs m).mgr = (Add m).2.1 ∧
      (runInstallers AddToManagerFuncs m).invoked = [Add] :=
  ⟨rfl, rfl, rfl⟩

/-- C9, the claim as stated fails: on a cluster where the probe returns true, an
installer that returns an error makes `AddToManager` return that error to its
caller. -/
theorem AddToManager_returns_installer_error :
    (runningOnOpenshift openshiftCluster freshManager.GetConfig).1 = true ∧
    (AddToManager openshiftCluster [failingInstaller] freshManager).err
      = some { msg := "cannot set up webhook" } ∧
    (AddToManager openshiftCluster [failingInstaller] freshManager).err ≠ none :=
  ⟨rfl, rfl, by simp [AddToManager, runningOnOpenshift, openshiftCluster, runInstallers,
    failingInstaller]⟩

/-- C9 (amended): a probe that returns false, whatever the reason, is swallowed:
`AddToManager` logs that OpenShift was not detected and returns the nil error.  An
error of an installer is logged and returned: when the probe returns true and an
installer fails, the installers before it having returned the nil error, its error
is what `AddToManager` returns, logged as "Unable to setup webhook"; every error
`AddToManager` returns arises in this way; the nil error is returned when no
installer fails, as with the registered list (`knativeserving.Add` alone).  The
installers are called in list order, each on the manager left by the ones before. -/
theorem AddToManager_error_reporting (api : ClusterAPI) (funcs : List Installer) (m : Manager) :
    ((runningOnOpenshift api m.GetConfig).1 = false →
      (AddToManager api funcs m).err = none ∧
      LogEntry.info "webhook" "OpenShift not detected; no webhooks will be configured"
        ∈ (AddToManager api funcs m).logs) ∧
    ((runningOnOpenshift api m.GetConfig).1 = true →
      ∀ (pre : List Installer) (f : Installer) (post : List Installer) (e : GoError),
        funcs = pre ++ f :: post →
        (∀ (pre1 : List Installer) (g : Installer) (post1 : List Installer),
          pre = pre1 ++ g :: post1 → (g (pre1.foldl (fun (acc : Manager) (i : Installer) => (i acc).2.1) m)).1 = none) →
        (f (pre.foldl (fun (acc : Manager) (i : Installer) => (i acc).2.1) m)).1 = some e →
        (AddToManager api funcs m).err = some e ∧
        LogEntry.error "webhook" e "Unable to setup webhook" ∈ (AddToManager api funcs m).logs) ∧
    (∀ e : GoError, (AddToManager api funcs m).err = some e →
      (runningOnOpenshift api m.GetConfig).1 = true ∧
      (∃ (pre : List Installer) (f : Installer) (post : List Installer),
        funcs = pre ++ f :: post ∧
        (∀ (pre1 : List Installer) (g : Installer) (post1 : List Installer),
          pre = pre1 ++ g :: post1 → (g (pre1.foldl (fun (acc : Manager) (i : Installer) => (i acc).2.1) m)).1 = none) ∧
        (f (pre.foldl (fun (acc : Manager) (i : Installer) => (i acc).2.1) m)).1 = some e) ∧
      LogEntry.error "webhook" e "Unable to setup webhook" ∈ (AddToManager api funcs m).logs) ∧
    ((∀ (pre1 : List Installer) (g : Installer) (post1 : List Installer),
        funcs = pre1 ++ g :: post1 → (g (pre1.foldl (fun (acc : Manager) (i : Installer) => (i acc).2.1) m)).1 = none) →
      (AddToManager api funcs m).err = none) ∧
    (AddToManager api AddToManagerFuncs m).err = none := by
  refine ⟨?_, ?_, ?_, ?_, ?_⟩
  · intro hp
    rcases hq : runningOnOpenshift api m.GetConfig with ⟨b, l⟩
    rw [hq] at hp
    simp only at hp
    subst hp
    simp [AddToManager, hq]
  · intro hp pre f post e hsplit hpre hf
    rcases AddToManager_cases api funcs m with ⟨hq, -⟩ | ⟨-, he, -, -, hlogs⟩
    · rw [hp] at hq
      cases hq
    · obtain ⟨h1, -, -, h4⟩ := runInstallers_append pre (f :: post) m hpre
      obtain ⟨g1, -, -, g4⟩ := runInstallers_head_error f post _ e hf
      rw [← hsplit] at h1 h4
      exact ⟨by rw [he, h1, g1], hlogs _ (h4 _ g4)⟩
  · intro e he
    rcases AddToManager_cases api funcs m with ⟨-, hn, -⟩ | ⟨hq, herr, -, -, hlogs⟩
    · rw [hn] at he
      cases he
    · rw [herr] at he
      exact ⟨hq, runInstallers_first_error funcs m e he,
        hlogs _ (runInstallers_err funcs m e he).2⟩
  · intro hall
    rcases AddToManager_cases api funcs m with ⟨-, hn, -⟩ | ⟨-, herr, -⟩
    · exact hn
    · rw [herr]
      exact (runInstallers_all_ok funcs m hall).1
  · rcases AddToManager_cases api AddToManagerFuncs m with ⟨-, hn, -⟩ | ⟨-, herr, -⟩
    · exact hn
    · rw [herr]
      exact (runInstallers_registered m).1

/-- Witness for C9 (amended): on a vanilla cluster the probe returns false and
`AddToManager` returns the nil error, also with an installer that would fail; on a
cluster that serves routes, the error of the second installer of
`[Add, failingInstaller]` is returned and logged. -/
theorem AddToManager_error_reporting_witness :
    ((runningOnOpenshift vanillaCluster freshManager.GetConfig).1 = false ∧
      (AddToManager vanillaCluster [failingInstaller] freshManager).err = none ∧
      LogEntry.info "webhook" "OpenShift not detected; no webhooks will be configured"
        ∈ (AddToManager vanillaCluster [failingInstaller] freshManager).logs) ∧
    ((runningOnOpenshift openshiftCluster freshManager.GetConfig).1 = true ∧
      (AddToManager openshiftCluster [Add, failingInstaller] freshManager).err
        = some { msg := "cannot set up webhook" } ∧
      LogEntry.error "webhook" { msg := "cannot set up webhook" } "Unable to setup webhook"
        ∈ (AddToManager openshiftCluster [Add, failingInstaller] freshManager).logs) :=
  ⟨⟨rfl, (AddToManager_error_reporting vanillaCluster [failingInstaller] freshManager).1 rfl⟩,
    rfl,
    (AddToManager_error_reporting openshiftCluster [Add, failingInstaller] freshManager).2.1 rfl
      [Add] failingInstaller [] { msg := "cannot set up webhook" } rfl
      (by
        intro pre1 g post1 h
        cases pre1 with
        | nil =>
          simp only [List.nil_append, List.cons.injEq] at h
          obtain ⟨h1, -⟩ := h
          subst h1
          rfl
        | cons x t => simp at h)
      rfl⟩

/-- C10, the claim as stated fails: with a true probe and the list
`[failingInstaller, Add]`, only the first installer is called; `Add` is never
called and nothing is mounted at "/mutate-v1alpha1-knativeserving". -/
theorem AddToManager_stops_at_first_error :
    (runningOnOpenshift openshiftCluster freshManager.GetConfig).1 = true ∧
    [failingInstaller, Add].length = 2 ∧
    (AddToManager openshiftCluster [failingInstaller, Add] freshManager).invoked.length = 1 ∧
    (AddToManager openshiftCluster [failingInstaller, Add] freshManager).mgr.webhookServer.paths
      = [] :=
  ⟨rfl, rfl, rfl, rfl⟩

/-- C10 (amended): registration is gated by the probe.  When the probe returns
false no installer is called, the manager and the paths mounted on its webhook
server are unchanged and the nil error is returned.  An installer is called only
when the probe returns true; then the installers are called in list order, each on
the manager left by the ones before, up to and including the first one that
returns an error: exactly the installers before it and that one are called, and
all of them when none returns an error (at least one when the list is not empty).
The installer `knativeserving.Add` mounts the handler at exactly the path
"/mutate-v1alpha1-knativeserving", so with the registered list and a true probe
that path is the one path added. -/
theorem AddToManager_gated_by_probe (api : ClusterAPI) (funcs : List Installer) (m : Manager) :
    ((runningOnOpenshift api m.GetConfig).1 = false →
      (AddToManager api funcs m).invoked = [] ∧
      (AddToManager api funcs m).mgr = m ∧
      (AddToManager api funcs m).mgr.webhookServer.paths = m.webhookServer.paths ∧
      (AddToManager api funcs m).err = none) ∧
    ((AddToManager api funcs m).invoked ≠ [] → (runningOnOpenshift api m.GetConfig).1 = true) ∧
    ((runningOnOpenshift api m.GetConfig).1 = true →
      ∃ rest : List Installer, funcs = (AddToManager api funcs m).invoked ++ rest ∧
        ((AddToManager api funcs m).err = none → rest = []) ∧
        (funcs ≠ [] → (AddToManager api funcs m).invoked ≠ [])) ∧
    ((runningOnOpenshift api m.GetConfig).1 = true →
      ∀ (pre : List Installer) (f : Installer) (post : List Installer) (e : GoError),
        funcs = pre ++ f :: post →
        (∀ (pre1 : List Installer) (g : Installer) (post1 : List Installer),
          pre = pre1 ++ g :: post1 → (g (pre1.foldl (fun (acc : Manager) (i : Installer) => (i acc).2.1) m)).1 = none) →
        (f (pre.foldl (fun (acc : Manager) (i : Installer) => (i acc).2.1) m)).1 = some e →
        (AddToManager api funcs m).invoked = pre ++ [f] ∧
        (AddToManager api funcs m).mgr = (f (pre.foldl (fun (acc : Manager) (i : Installer) => (i acc).2.1) m)).2.1) ∧
    ((runningOnOpenshift api m.GetConfig).1 = true →
      (∀ (pre1 : List Installer) (g : Installer) (post1 : List Installer),
        funcs = pre1 ++ g :: post1 → (g (pre1.foldl (fun (acc : Manager) (i : Installer) => (i acc).2.1) m)).1 = none) →
      (AddToManager api funcs m).invoked = funcs ∧
      (AddToManager api funcs m).mgr = funcs.foldl (fun (acc : Manager) (i : Installer) => (i acc).2.1) m ∧
      (AddToManager api funcs m).err = none) ∧
    ((Add m).1 = none ∧ (Add m).2.1.config = m.config ∧
      (Add m).2.1.webhookServer.webhooks
        = m.webhookServer.webhooks
          ++ [("/mutate-v1alpha1-knativeserving", { Handler := .knativeServingConfigurator })]) ∧
    ((runningOnOpenshift api m.GetConfig).1 = true →
      (AddToManager api AddToManagerFuncs m).invoked = [Add] ∧
      (AddToManager api AddToManagerFuncs m).err = none ∧
      (AddToManager api AddToManagerFuncs m).mgr.webhookServer.paths
        = m.webhookServer.paths ++ ["/mutate-v1alpha1-knativeserving"]) := by
  refine ⟨?_, ?_, ?_, ?_, ?_, Add_spec m, ?_⟩
  · intro hp
    rcases AddToManager_cases api funcs m with ⟨-, he, hm, hi⟩ | ⟨hq, -⟩
    · exact ⟨hi, hm, by rw [hm], he⟩
    · rw [hp] at hq
      cases hq
  · intro hne
    rcases AddToManager_cases api funcs m with ⟨-, -, -, hi⟩ | ⟨hq, -⟩
    · exact absurd hi hne
    · exact hq
  · intro hp
    rcases AddToManager_cases api funcs m with ⟨hq, -⟩ | ⟨-, he, -, hi, -⟩
    · rw [hp] at hq
      cases hq
    · rw [he, hi]
      exact runInstallers_invoked funcs m
  · intro hp pre f post e hsplit hpre hf
    rcases AddToManager_cases api funcs m with ⟨hq, -⟩ | ⟨-, -, hm, hi, -⟩
    · rw [hp] at hq
      cases hq
    · obtain ⟨-, h2, h3, -⟩ := runInstallers_append pre (f :: post) m hpre
      obtain ⟨-, g2, g3, -⟩ := runInstallers_head_error f post _ e hf
      rw [← hsplit] at h2 h3
      exact ⟨by rw [hi, h3, g3], by rw [hm, h2, g2]⟩
  · intro hp hall
    rcases AddToManager_cases api funcs m with ⟨hq, -⟩ | ⟨-, he, hm, hi, -⟩
    · rw [hp] at hq
      cases hq
    · obtain ⟨h1, h2, h3⟩ := runInstallers_all_ok funcs m hall
      exact ⟨by rw [hi, h2], by rw [hm, h3], by rw [he, h1]⟩
  · intro hp
    rcases AddToManager_cases api AddToManagerFuncs m with ⟨hq, -⟩ | ⟨-, he, hm, hi, -⟩
    · rw [hp] at hq
      cases hq
    · obtain ⟨h1, h2, h3⟩ := runInstallers_registered m
      refine ⟨by rw [hi, h3], by rw [he, h1], ?_⟩
      rw [hm, h2]
      simp [WebhookServer.paths, Add, WebhookServer.Register, Manager.GetWebhookServer,
        mutatePath]

/-- Witness for C10 (amended): on a cluster that serves routes, `AddToManager`
over the registered list calls `knativeserving.Add`, which mounts the path; over
`[Add, failingInstaller, Add]` it calls the first two installers and stops. -/
theorem AddToManager_gated_by_probe_witness :
    (runningOnOpenshift openshiftCluster freshManager.GetConfig).1 = true ∧
    ((AddToManager openshiftCluster AddToManagerFuncs freshManager).invoked = [Add] ∧
      (AddToManager openshiftCluster AddToManagerFuncs freshManager).err = none ∧
      (AddToManager openshiftCluster AddToManagerFuncs freshManager).mgr.webhookServer.paths
        = freshManager.webhookServer.paths ++ ["/mutate-v1alpha1-knativeserving"]) ∧
    ((AddToManager openshiftCluster [Add, failingInstaller, Add] freshManager).invoked
        = [Add] ++ [failingInstaller] ∧
      (AddToManager openshiftCluster [Add, failingInstaller, Add] freshManager).mgr
        = (failingInstaller ([Add].foldl (fun (acc : Manager) (i : Installer) => (i acc).2.1) freshManager)).2.1) :=
  ⟨rfl,
    (AddToManager_gated_by_probe openshiftCluster AddToManagerFuncs freshManager).2.2.2.2.2.2 rfl,
    (AddToManager_gated_by_probe openshiftCluster [Add, failingInstaller, Add]
        freshManager).2.2.2.1 rfl
      [Add] failingInstaller [Add] { msg := "cannot set up webhook" } rfl
      (by
        intro pre1 g post1 h
        cases pre1 with
        | nil =>
          simp only [List.nil_append, List.cons.injEq] at h
          obtain ⟨h1, -⟩ := h
          subst h1
          rfl
        | cons x t => simp at h)
      rfl⟩

end KnativeWebhook
